import Mathlib

/-!
Shallow embedding of the license server (Express + better-sqlite3 backend,
the SQLite-backed main server file of the repository).

Modelling choices:
* The `licenses` table is a list of rows (`Store`); `key` carries a UNIQUE
  constraint, modelled by `containsKey` checks on insert.  `getRow` is the
  `SELECT * FROM licenses WHERE key = ?` (first match), `updateRow` the
  `UPDATE licenses ... WHERE key = ?` (applied to every row whose key matches).
* Timestamps are naturals (milliseconds since epoch).  The code stores ISO
  strings and compares them after parsing with `new Date`; that comparison is
  the numeric comparison of the underlying milliseconds, which we use directly.
* JavaScript truthiness on the string columns (`row.bound_ip`, the `license`
  parameter): `null`/absent and the empty string are falsy; `truthy` and
  `jsOr` model `x` / `x || d` on optional strings.
* Random values (the 24-hex-char key suffix, the uuid row id) are handler
  parameters; each handler invocation consumes exactly one suffix, as the
  source calls `makeKey` exactly once per request.
* The handlers run synchronously; each is one state transition
  `Store -> output x Store`.  A thrown UNIQUE-constraint violation on INSERT
  is the error branch of the surrounding try/catch (HTTP 500), leaving the
  store unchanged.
-/

namespace LicenseServer

/-- A row of the `licenses` table (columns in CREATE TABLE order). -/
structure LicenseRow where
  id : String
  key : String
  tier : String
  owner_email : Option String
  created_at : Nat
  expires_at : Option Nat
  active : Bool
  bound_ip : Option String
  last_seen_ip : Option String
  last_validated : Option Nat
  meta : Option String
deriving DecidableEq

/-- The `licenses` table. -/
abbrev Store := List LicenseRow

/-- JavaScript truthiness of an optional string: null/absent and `""` are falsy. -/
def truthy : Option String → Bool
  | none => false
  | some s => !(s == "")

/-- JavaScript `x || d` on an optional string. -/
def jsOr (o : Option String) (d : String) : String :=
  match o with
  | none => d
  | some s => if s == "" then d else s

/-- The expiry test of the validate handler:
`row.expires_at && new Date(row.expires_at) < new Date()` (strict `<`). -/
def isExpired (e : Option Nat) (now : Nat) : Bool :=
  match e with
  | none => false
  | some t => t < now

/-- `SELECT * FROM licenses WHERE key = ?` (first matching row). -/
def getRow (s : Store) (k : String) : Option LicenseRow :=
  s.find? (fun r => r.key == k)

/-- `UPDATE licenses SET ... WHERE key = ?`: apply `f` to every row whose key is `k`. -/
def updateRow (s : Store) (k : String) (f : LicenseRow → LicenseRow) : Store :=
  s.map (fun r => if r.key == k then f r else r)

/-- Whether the UNIQUE constraint on `key` would reject inserting key `k`. -/
def containsKey (s : Store) (k : String) : Bool :=
  s.any (fun r => r.key == k)

/-- Milliseconds per day; the handlers compute `days * 86400000` ms. -/
def msPerDay : Nat := 86400000

/-- `makeKey`: the key string `TIER-RANDOMHEX`; the random 24-hex-char
upper-cased suffix is the `rand` parameter. -/
def makeKey (tierChar : String) (rand : String) : String :=
  tierChar ++ "-" ++ rand

/-- `getRequestIP`: prefer `x-client-ip`, else `x-forwarded-for` (first entry of a
comma list, trimmed), else the transport peer address with an IPv4-mapped
`::ffff:` prefix stripped (JS `replace` rewrites the first occurrence, which is
the prefix, hence `drop 7`). -/
def getRequestIP (clientIpHeader fwdForHeader : Option String) (reqIp : String) : String :=
  let forwarded : Option String := if truthy clientIpHeader then clientIpHeader else fwdForHeader
  if truthy forwarded then
    (((forwarded.getD "").splitOn ",").headD "").trim
  else
    if reqIp.startsWith "::ffff:" then reqIp.drop 7 else reqIp

/-- JavaScript `String.prototype.toUpperCase` on the ASCII tier letters. -/
def jsToUpper (s : String) : String := String.mk (s.data.map Char.toUpper)

/-- Human-readable tier name: `tier === 'A' ? 'Aegis' : tier === 'G' ? 'Guardian' : 'Sentinel'`. -/
def tierName (tier : String) : String :=
  if tier == "A" then "Aegis" else if tier == "G" then "Guardian" else "Sentinel"

/-- Responses of the `GET /generate` handler. -/
inductive GOut where
  | invalidTier
  | serverError
  | ok (license : String) (tier : String) (expiresAt : Nat) (generatedAt : Nat)
      (owner_email : Option String)
deriving DecidableEq

/-- `GET /generate` handler: tier defaults to `'S'` and is upper-cased before the
membership check; one key is generated; the INSERT hits the UNIQUE constraint
when the key already exists, which the catch block turns into a 500 with the
store unchanged. -/
def generateHandler (s : Store) (tierQ : Option String) (email : Option String)
    (days : Nat) (now : Nat) (rand : String) (newId : String) : GOut × Store :=
  if !(["S", "G", "A"].contains (jsToUpper (jsOr tierQ "S"))) then (GOut.invalidTier, s)
  else if containsKey s (makeKey (jsToUpper (jsOr tierQ "S")) rand) then (GOut.serverError, s)
  else
    (GOut.ok (makeKey (jsToUpper (jsOr tierQ "S")) rand) (tierName (jsToUpper (jsOr tierQ "S")))
        (now + days * msPerDay) now email,
      s ++ [⟨newId, makeKey (jsToUpper (jsOr tierQ "S")) rand, jsToUpper (jsOr tierQ "S"),
        email, now, some (now + days * msPerDay), true, none, none, none, none⟩])

/-- Responses of the `POST /activate` handler. -/
inductive AOut where
  | licenseRequired
  | createdOk (license : String) (expiresAt : Nat)
  | ok (license : String) (expiresAt : Nat)
deriving DecidableEq

/-- `POST /activate` handler: missing `license` is a 400; an unknown key is
freshly inserted with tier `'S'` (`created: true`); a known key gets
`active = 1, expires_at = ?, owner_email = ?` written unconditionally, with
`owner_email` defaulted to null when the request omits it. -/
def activateHandler (s : Store) (license : Option String) (days : Nat)
    (owner_email : Option String) (now : Nat) (newId : String) : AOut × Store :=
  if !(truthy license) then (AOut.licenseRequired, s)
  else
    match getRow s (license.getD "") with
    | none =>
        (AOut.createdOk (license.getD "") (now + days * msPerDay),
          s ++ [⟨newId, license.getD "", "S", owner_email, now, some (now + days * msPerDay),
            true, none, none, none, none⟩])
    | some _ =>
        (AOut.ok (license.getD "") (now + days * msPerDay),
          updateRow s (license.getD "") (fun r =>
            { r with active := true, expires_at := some (now + days * msPerDay),
                     owner_email := owner_email }))

/-- Responses of the `POST /renew` handler. -/
inductive ROut where
  | licenseRequired
  | notFound
  | ok (license : String) (expiresAt : Nat)
deriving DecidableEq

/-- `POST /renew` handler: missing `license` is a 400; an unknown key is a 404
with no write; otherwise `expires_at = ?, active = 1` is written. -/
def renewHandler (s : Store) (license : Option String) (days : Nat) (now : Nat) :
    ROut × Store :=
  if !(truthy license) then (ROut.licenseRequired, s)
  else
    match getRow s (license.getD "") with
    | none => (ROut.notFound, s)
    | some _ =>
        (ROut.ok (license.getD "") (now + days * msPerDay),
          updateRow s (license.getD "") (fun r =>
            { r with expires_at := some (now + days * msPerDay), active := true }))

/-- Responses of the `POST /deactivate` handler. -/
inductive DOut where
  | licenseRequired
  | ok (license : String)
deriving DecidableEq

/-- `POST /deactivate` handler: writes `active = 0` for the key, reporting ok
whether or not any row matched. -/
def deactivateHandler (s : Store) (license : Option String) : DOut × Store :=
  if !(truthy license) then (DOut.licenseRequired, s)
  else
    (DOut.ok (license.getD ""),
      updateRow s (license.getD "") (fun r => { r with active := false }))

/-- Response bodies of the `GET /validate` handler, one constructor per
`res.json` site. -/
inductive VOut where
  | licenseRequired
  | notFound
  | deactivated
  | expired
  | ipMismatch (bound_ip : String) (incomingIp : String)
  | valid (license : String) (tier : String) (owner_email : Option String)
      (expires_at : Option Nat) (bound_ip : String)
deriving DecidableEq

/-- HTTP status attached to each validate response in the source
(`res.status(400)`, `res.status(404)`, otherwise the `res.json` default 200). -/
def VOut.status : VOut → Nat
  | VOut.licenseRequired => 400
  | VOut.notFound => 404
  | _ => 200

/-- The `valid` field of each validate response body. -/
def VOut.validFlag : VOut → Bool
  | VOut.valid _ _ _ _ _ => true
  | _ => false

/-- The `reason` field of each validate response body. -/
def VOut.reason : VOut → Option String
  | VOut.licenseRequired => some "license required"
  | VOut.notFound => some "not_found"
  | VOut.deactivated => some "deactivated"
  | VOut.expired => some "expired"
  | VOut.ipMismatch _ _ => some "ip_mismatch"
  | VOut.valid _ _ _ _ _ => none

/-- The `UPDATE licenses SET last_seen_ip = ?, last_validated = ? WHERE key = ?`
step at the end of every successful validation. -/
def touch (s : Store) (lic ip : String) (now : Nat) : Store :=
  updateRow s lic (fun r => { r with last_seen_ip := some ip, last_validated := some now })

/-- `GET /validate` handler.  `bindIp` is the `BIND_IP_ON_FIRST_VALIDATE`
configuration flag, `incomingIp` the already-resolved requester address
(`getRequestIP`), `now` the request instant.  Branches in source order:
missing license, absent row, inactive row, expired row (writes `active = 0`),
bound mismatch (no write), bound match, unbound (optional one-time bind),
then the last-seen/last-validated write and the success body, whose
`bound_ip` field is `row.bound_ip || incomingIp` on the row as first read. -/
def validateHandler (bindIp : Bool) (s : Store) (license : Option String)
    (incomingIp : String) (now : Nat) : VOut × Store :=
  if !(truthy license) then (VOut.licenseRequired, s)
  else
    match getRow s (license.getD "") with
    | none => (VOut.notFound, s)
    | some row =>
      if !row.active then (VOut.deactivated, s)
      else if isExpired row.expires_at now then
        (VOut.expired, updateRow s (license.getD "") (fun r => { r with active := false }))
      else if truthy row.bound_ip then
        if row.bound_ip.getD "" != incomingIp then
          (VOut.ipMismatch (row.bound_ip.getD "") incomingIp, s)
        else
          (VOut.valid row.key row.tier row.owner_email row.expires_at
              (jsOr row.bound_ip incomingIp),
            touch s (license.getD "") incomingIp now)
      else
        (VOut.valid row.key row.tier row.owner_email row.expires_at
            (jsOr row.bound_ip incomingIp),
          touch
            (if bindIp then
              updateRow s (license.getD "") (fun r => { r with bound_ip := some incomingIp })
            else s)
            (license.getD "") incomingIp now)

/-! Store lemmas: how `getRow` interacts with `updateRow` and append. -/

/-- A row returned by `getRow s k` has key `k`. -/
theorem getRow_key_eq {s : Store} {k : String} {row : LicenseRow}
    (h : getRow s k = some row) : row.key = k := by
  have h' : List.find? (fun r => r.key == k) s = some row := h
  have h2 := List.find?_some h'
  simpa using h2

/-- Reading back the updated key after a key-preserving update. -/
theorem getRow_updateRow_self (s : Store) (k : String) (f : LicenseRow → LicenseRow)
    (hf : ∀ r, (f r).key = r.key) :
    getRow (updateRow s k f) k = (getRow s k).map f := by
  induction s with
  | nil => rfl
  | cons r t ih =>
    by_cases h : r.key = k
    · simp only [updateRow, List.map_cons, if_pos (show (r.key == k) = true by simp [h])]
      simp only [getRow]
      rw [List.find?_cons_of_pos _ (by simp [hf, h]), List.find?_cons_of_pos _ (by simp [h])]
      rfl
    · simp only [updateRow, List.map_cons, if_neg (show ¬ (r.key == k) = true by simp [h])]
      simp only [getRow] at ih ⊢
      rw [List.find?_cons_of_neg _ (by simp [h]), List.find?_cons_of_neg _ (by simp [h])]
      exact ih

/-- A key-preserving update on a different key leaves a row unread. -/
theorem getRow_updateRow_ne (s : Store) (k lic : String) (f : LicenseRow → LicenseRow)
    (hne : k ≠ lic) (hf : ∀ r, (f r).key = r.key) :
    getRow (updateRow s lic f) k = getRow s k := by
  induction s with
  | nil => rfl
  | cons r t ih =>
    by_cases h : r.key = lic
    · simp only [updateRow, List.map_cons, if_pos (show (r.key == lic) = true by simp [h])]
      simp only [getRow] at ih ⊢
      rw [List.find?_cons_of_neg _ (by simp [hf, h]; exact fun hk => hne (hk ▸ h ▸ rfl)),
        List.find?_cons_of_neg _ (by simp [h]; exact fun hk => hne (hk ▸ h ▸ rfl))]
      exact ih
    · by_cases h2 : r.key = k
      · simp only [updateRow, List.map_cons, if_neg (show ¬ (r.key == lic) = true by simp [h])]
        simp only [getRow]
        rw [List.find?_cons_of_pos _ (by simp [h2]), List.find?_cons_of_pos _ (by simp [h2])]
      · simp only [updateRow, List.map_cons, if_neg (show ¬ (r.key == lic) = true by simp [h])]
        simp only [getRow] at ih ⊢
        rw [List.find?_cons_of_neg _ (by simp [h2]), List.find?_cons_of_neg _ (by simp [h2])]
        exact ih

/-- Appending rows does not change an existing lookup. -/
theorem getRow_append_of_some {s : Store} {k : String} {row : LicenseRow} (l : Store)
    (h : getRow s k = some row) : getRow (s ++ l) k = some row := by
  simp only [getRow] at h ⊢
  rw [List.find?_append, h]
  rfl

/-- An update that preserves keys and `bound_ip` preserves the `bound_ip`
projection of every lookup. -/
theorem getRow_map_bound_ip_updateRow (s : Store) (k lic : String)
    (f : LicenseRow → LicenseRow)
    (hfk : ∀ r, (f r).key = r.key) (hfb : ∀ r, (f r).bound_ip = r.bound_ip) :
    (getRow (updateRow s lic f) k).map (fun r => r.bound_ip)
      = (getRow s k).map (fun r => r.bound_ip) := by
  by_cases h : k = lic
  · subst h
    rw [getRow_updateRow_self s k f hfk]
    cases getRow s k <;> simp [hfb]
  · rw [getRow_updateRow_ne s k lic f h hfk]

/-- The validate handler never changes the `bound_ip` of a row whose
`bound_ip` is already truthy (set and non-empty). -/
theorem validate_preserves_bound_ip (bindIp : Bool) (s : Store) (license : Option String)
    (ip : String) (now : Nat) (k : String) (row : LicenseRow)
    (hget : getRow s k = some row) (hb : truthy row.bound_ip = true) :
    (getRow (validateHandler bindIp s license ip now).2 k).map (fun r => r.bound_ip)
      = some row.bound_ip := by
  have base : (getRow s k).map (fun r => r.bound_ip) = some row.bound_ip := by
    rw [hget]
    rfl
  unfold validateHandler
  split
  · exact base
  · split
    · exact base
    · rename_i row' heq
      split
      · exact base
      · split
        · rw [getRow_map_bound_ip_updateRow]
          · exact base
          · exact fun r => rfl
          · exact fun r => rfl
        · split
          · split
            · exact base
            · unfold touch
              rw [getRow_map_bound_ip_updateRow]
              · exact base
              · exact fun r => rfl
              · exact fun r => rfl
          · rename_i hnotb
            have hklic : k ≠ license.getD "" := by
              intro hkl
              rw [← hkl, hget] at heq
              cases heq
              simp [hb] at hnotb
            unfold touch
            rw [getRow_updateRow_ne _ k _ _ hklic]
            · split
              · rw [getRow_updateRow_ne _ k _ _ hklic]
                · exact base
                · exact fun r => rfl
              · exact base
            · exact fun r => rfl

/-- The activate handler never changes the `bound_ip` of an existing row. -/
theorem activate_preserves_bound_ip (s : Store) (license : Option String) (days : Nat)
    (email : Option String) (now : Nat) (newId : String) (k : String) (row : LicenseRow)
    (hget : getRow s k = some row) :
    (getRow (activateHandler s license days email now newId).2 k).map (fun r => r.bound_ip)
      = some row.bound_ip := by
  have base : (getRow s k).map (fun r => r.bound_ip) = some row.bound_ip := by
    rw [hget]
    rfl
  unfold activateHandler
  split
  · exact base
  · split
    · show (getRow (s ++ _) k).map (fun r => r.bound_ip) = some row.bound_ip
      rw [getRow_append_of_some _ hget]
      rfl
    · rw [getRow_map_bound_ip_updateRow]
      · exact base
      · exact fun r => rfl
      · exact fun r => rfl

/-- The renew handler never changes the `bound_ip` of an existing row. -/
theorem renew_preserves_bound_ip (s : Store) (license : Option String) (days now : Nat)
    (k : String) (row : LicenseRow) (hget : getRow s k = some row) :
    (getRow (renewHandler s license days now).2 k).map (fun r => r.bound_ip)
      = some row.bound_ip := by
  have base : (getRow s k).map (fun r => r.bound_ip) = some row.bound_ip := by
    rw [hget]
    rfl
  unfold renewHandler
  split
  · exact base
  · split
    · exact base
    · rw [getRow_map_bound_ip_updateRow]
      · exact base
      · exact fun r => rfl
      · exact fun r => rfl

/-- The deactivate handler never changes the `bound_ip` of an existing row. -/
theorem deactivate_preserves_bound_ip (s : Store) (license : Option String)
    (k : String) (row : LicenseRow) (hget : getRow s k = some row) :
    (getRow (deactivateHandler s license).2 k).map (fun r => r.bound_ip)
      = some row.bound_ip := by
  have base : (getRow s k).map (fun r => r.bound_ip) = some row.bound_ip := by
    rw [hget]
    rfl
  unfold deactivateHandler
  split
  · exact base
  · rw [getRow_map_bound_ip_updateRow]
    · exact base
    · exact fun r => rfl
    · exact fun r => rfl

/-! Claim theorems. -/

/-- Claim C1: for an active, non-expired record with `bound_ip` unset and IP
binding enabled, a validate call sets `bound_ip` to the resolved requester
address, records `last_seen_ip` and `last_validated`, and returns valid with
the effective bound IP; a subsequent validate from a different address gets
`ip_mismatch` reporting both IPs with no mutation of the store. -/
theorem firstValidate_binds_then_mismatch (s : Store) (k ip1 ip2 : String)
    (now1 now2 : Nat) (row : LicenseRow)
    (hk : k ≠ "") (hip1 : ip1 ≠ "") (hne : ip2 ≠ ip1)
    (hget : getRow s k = some row) (hact : row.active = true)
    (hnx1 : isExpired row.expires_at now1 = false)
    (hnx2 : isExpired row.expires_at now2 = false)
    (hunbound : row.bound_ip = none) :
    (validateHandler true s (some k) ip1 now1).1
      = VOut.valid k row.tier row.owner_email row.expires_at ip1
    ∧ getRow (validateHandler true s (some k) ip1 now1).2 k
      = some { row with bound_ip := some ip1, last_seen_ip := some ip1, last_validated := some now1 }
    ∧ validateHandler true (validateHandler true s (some k) ip1 now1).2 (some k) ip2 now2
      = (VOut.ipMismatch ip1 ip2, (validateHandler true s (some k) ip1 now1).2) := by
  have hkey : row.key = k := getRow_key_eq hget
  have hstep : validateHandler true s (some k) ip1 now1
      = (VOut.valid k row.tier row.owner_email row.expires_at ip1,
          touch (updateRow s k (fun r => { r with bound_ip := some ip1 })) k ip1 now1) := by
    unfold validateHandler
    simp [truthy, hk, hget, hact, hnx1, hunbound, jsOr, hkey]
  have hrow2 : getRow (touch (updateRow s k (fun r => { r with bound_ip := some ip1 })) k ip1 now1) k
      = some { row with bound_ip := some ip1, last_seen_ip := some ip1, last_validated := some now1 } := by
    unfold touch
    rw [getRow_updateRow_self _ k
        (fun r => { r with last_seen_ip := some ip1, last_validated := some now1 })
        (fun r => rfl),
      getRow_updateRow_self s k (fun r => { r with bound_ip := some ip1 }) (fun r => rfl),
      hget]
    rfl
  refine ⟨by rw [hstep], by rw [hstep]; exact hrow2, ?_⟩
  rw [hstep]
  unfold validateHandler
  simp [truthy, hk, hrow2, hact, hnx2, hip1, hne.symm]

/-- Witness for C1 at a concrete record and pair of addresses. -/
theorem firstValidate_binds_then_mismatch_witness :
    (validateHandler true [⟨"i1", "K-1", "G", none, 0, some 1000, true, none, none, none, none⟩]
        (some "K-1") "1.1.1.1" 5).1
      = VOut.valid "K-1" "G" none (some 1000) "1.1.1.1"
    ∧ getRow (validateHandler true [⟨"i1", "K-1", "G", none, 0, some 1000, true, none, none, none, none⟩]
        (some "K-1") "1.1.1.1" 5).2 "K-1"
      = some ⟨"i1", "K-1", "G", none, 0, some 1000, true, some "1.1.1.1", some "1.1.1.1", some 5, none⟩
    ∧ validateHandler true
        (validateHandler true [⟨"i1", "K-1", "G", none, 0, some 1000, true, none, none, none, none⟩]
          (some "K-1") "1.1.1.1" 5).2 (some "K-1") "2.2.2.2" 6
      = (VOut.ipMismatch "1.1.1.1" "2.2.2.2",
          (validateHandler true [⟨"i1", "K-1", "G", none, 0, some 1000, true, none, none, none, none⟩]
            (some "K-1") "1.1.1.1" 5).2) :=
  firstValidate_binds_then_mismatch
    [⟨"i1", "K-1", "G", none, 0, some 1000, true, none, none, none, none⟩]
    "K-1" "1.1.1.1" "2.2.2.2" 5 6
    ⟨"i1", "K-1", "G", none, 0, some 1000, true, none, none, none, none⟩
    (by decide) (by decide) (by decide) (by decide) (by decide) (by decide) (by decide) (by decide)

/-- Claim C2: an active record whose `expires_at` lies strictly in the past is
deactivated by the first validate call, which flips exactly the `active` field
and answers expired; every later validate on that key answers deactivated. -/
theorem expired_deactivates_once (bindIp bindIp2 : Bool) (s : Store) (k ip ip2 : String)
    (now now2 : Nat) (row : LicenseRow) (t : Nat)
    (hk : k ≠ "") (hget : getRow s k = some row) (hact : row.active = true)
    (hexp : row.expires_at = some t) (hlt : t < now) :
    (validateHandler bindIp s (some k) ip now).1 = VOut.expired
    ∧ getRow (validateHandler bindIp s (some k) ip now).2 k = some { row with active := false }
    ∧ (validateHandler bindIp2 (validateHandler bindIp s (some k) ip now).2 (some k) ip2 now2).1
        = VOut.deactivated := by
  have hstep : validateHandler bindIp s (some k) ip now
      = (VOut.expired, updateRow s k (fun r => { r with active := false })) := by
    unfold validateHandler
    simp [truthy, hk, hget, hact, isExpired, hexp, hlt]
  have hrow2 : getRow (updateRow s k (fun r => { r with active := false })) k
      = some { row with active := false } := by
    rw [getRow_updateRow_self s k (fun r => { r with active := false }) (fun r => rfl), hget]
    rfl
  refine ⟨by rw [hstep], by rw [hstep]; exact hrow2, ?_⟩
  rw [hstep]
  unfold validateHandler
  simp [truthy, hk, hrow2]

/-- Witness for C2 at a concrete expired record. -/
theorem expired_deactivates_once_witness :
    (validateHandler true [⟨"i2", "K-2", "S", none, 0, some 10, true, none, none, none, none⟩]
        (some "K-2") "3.3.3.3" 11).1 = VOut.expired
    ∧ getRow (validateHandler true [⟨"i2", "K-2", "S", none, 0, some 10, true, none, none, none, none⟩]
        (some "K-2") "3.3.3.3" 11).2 "K-2"
      = some ⟨"i2", "K-2", "S", none, 0, some 10, false, none, none, none, none⟩
    ∧ (validateHandler false
        (validateHandler true [⟨"i2", "K-2", "S", none, 0, some 10, true, none, none, none, none⟩]
          (some "K-2") "3.3.3.3" 11).2 (some "K-2") "4.4.4.4" 12).1 = VOut.deactivated :=
  expired_deactivates_once true false
    [⟨"i2", "K-2", "S", none, 0, some 10, true, none, none, none, none⟩]
    "K-2" "3.3.3.3" "4.4.4.4" 11 12
    ⟨"i2", "K-2", "S", none, 0, some 10, true, none, none, none, none⟩ 10
    (by decide) (by decide) (by decide) (by decide) (by decide)

/-- Claim C4: once a record's `bound_ip` is set to a non-empty value, none of
the exposed operations (validate, activate, renew, deactivate) ever changes
it. -/
theorem bound_ip_immutable (s : Store) (k : String) (row : LicenseRow)
    (hget : getRow s k = some row) (hb : truthy row.bound_ip = true) :
    (∀ bindIp license ip now,
        (getRow (validateHandler bindIp s license ip now).2 k).map (fun r => r.bound_ip)
          = some row.bound_ip)
    ∧ (∀ license days email now newId,
        (getRow (activateHandler s license days email now newId).2 k).map (fun r => r.bound_ip)
          = some row.bound_ip)
    ∧ (∀ license days now,
        (getRow (renewHandler s license days now).2 k).map (fun r => r.bound_ip)
          = some row.bound_ip)
    ∧ (∀ license,
        (getRow (deactivateHandler s license).2 k).map (fun r => r.bound_ip)
          = some row.bound_ip) :=
  ⟨fun bindIp license ip now => validate_preserves_bound_ip bindIp s license ip now k row hget hb,
   fun license days email now newId =>
     activate_preserves_bound_ip s license days email now newId k row hget,
   fun license days now => renew_preserves_bound_ip s license days now k row hget,
   fun license => deactivate_preserves_bound_ip s license k row hget⟩

/-- Witness for C4 at a concrete bound record, one instance per operation. -/
theorem bound_ip_immutable_witness :
    (getRow (validateHandler true
        [⟨"i4", "K-4", "A", some "o@x.y", 0, some 99, true, some "1.1.1.1", none, none, none⟩]
        (some "K-4") "9.9.9.9" 7).2 "K-4").map (fun r => r.bound_ip) = some (some "1.1.1.1")
    ∧ (getRow (activateHandler
        [⟨"i4", "K-4", "A", some "o@x.y", 0, some 99, true, some "1.1.1.1", none, none, none⟩]
        (some "K-4") 30 none 7 "idN").2 "K-4").map (fun r => r.bound_ip) = some (some "1.1.1.1")
    ∧ (getRow (renewHandler
        [⟨"i4", "K-4", "A", some "o@x.y", 0, some 99, true, some "1.1.1.1", none, none, none⟩]
        (some "K-4") 30 7).2 "K-4").map (fun r => r.bound_ip) = some (some "1.1.1.1")
    ∧ (getRow (deactivateHandler
        [⟨"i4", "K-4", "A", some "o@x.y", 0, some 99, true, some "1.1.1.1", none, none, none⟩]
        (some "K-4")).2 "K-4").map (fun r => r.bound_ip) = some (some "1.1.1.1") :=
  ⟨(bound_ip_immutable
      [⟨"i4", "K-4", "A", some "o@x.y", 0, some 99, true, some "1.1.1.1", none, none, none⟩]
      "K-4" ⟨"i4", "K-4", "A", some "o@x.y", 0, some 99, true, some "1.1.1.1", none, none, none⟩
      (by decide) (by decide)).1 true (some "K-4") "9.9.9.9" 7,
   (bound_ip_immutable
      [⟨"i4", "K-4", "A", some "o@x.y", 0, some 99, true, some "1.1.1.1", none, none, none⟩]
      "K-4" ⟨"i4", "K-4", "A", some "o@x.y", 0, some 99, true, some "1.1.1.1", none, none, none⟩
      (by decide) (by decide)).2.1 (some "K-4") 30 none 7 "idN",
   (bound_ip_immutable
      [⟨"i4", "K-4", "A", some "o@x.y", 0, some 99, true, some "1.1.1.1", none, none, none⟩]
      "K-4" ⟨"i4", "K-4", "A", some "o@x.y", 0, some 99, true, some "1.1.1.1", none, none, none⟩
      (by decide) (by decide)).2.2.1 (some "K-4") 30 7,
   (bound_ip_immutable
      [⟨"i4", "K-4", "A", some "o@x.y", 0, some 99, true, some "1.1.1.1", none, none, none⟩]
      "K-4" ⟨"i4", "K-4", "A", some "o@x.y", 0, some 99, true, some "1.1.1.1", none, none, none⟩
      (by decide) (by decide)).2.2.2 (some "K-4")⟩

/-- Claim C5, counterexample: at the exact expiry instant (`now = expires_at`)
the handler does NOT answer expired — the strict comparison lets the request
through and it validates successfully, refuting the claim that the license is
invalid at (not just after) its expiry instant. -/
theorem expiry_at_instant_cex :
    (validateHandler true [⟨"i5", "K-5", "S", none, 0, some 1000, true, none, none, none, none⟩]
        (some "K-5") "1.2.3.4" 1000).1
      = VOut.valid "K-5" "S" none (some 1000) "1.2.3.4"
    ∧ (validateHandler true [⟨"i5", "K-5", "S", none, 0, some 1000, true, none, none, none, none⟩]
        (some "K-5") "1.2.3.4" 1000).1
      ≠ VOut.expired := by decide

/-- Claim C5 as amended: an active record is reported expired exactly when the
current time is strictly past `expires_at`; at or before that instant the
validate call never answers expired. -/
theorem expired_strictly_after (bindIp : Bool) (s : Store) (k ip : String) (now : Nat)
    (row : LicenseRow) (t : Nat) (hk : k ≠ "")
    (hget : getRow s k = some row) (hact : row.active = true)
    (hexp : row.expires_at = some t) :
    (t < now → (validateHandler bindIp s (some k) ip now).1 = VOut.expired)
    ∧ (now ≤ t → (validateHandler bindIp s (some k) ip now).1 ≠ VOut.expired) := by
  constructor
  · intro hlt
    unfold validateHandler
    simp [truthy, hk, hget, hact, isExpired, hexp, hlt]
  · intro hle
    have hnx : isExpired row.expires_at now = false := by
      simp [isExpired, hexp]
      omega
    unfold validateHandler
    simp [truthy, hk, hget, hact, hnx]
    split
    · split <;> simp
    · simp

/-- Witness for the amended C5 on both sides of the expiry instant. -/
theorem expired_strictly_after_witness :
    (validateHandler true [⟨"i5w", "K-5W", "S", none, 0, some 1000, true, none, none, none, none⟩]
        (some "K-5W") "1.2.3.4" 1001).1 = VOut.expired
    ∧ (validateHandler true [⟨"i5w", "K-5W", "S", none, 0, some 1000, true, none, none, none, none⟩]
        (some "K-5W") "1.2.3.4" 1000).1 ≠ VOut.expired :=
  ⟨(expired_strictly_after true
      [⟨"i5w", "K-5W", "S", none, 0, some 1000, true, none, none, none, none⟩]
      "K-5W" "1.2.3.4" 1001
      ⟨"i5w", "K-5W", "S", none, 0, some 1000, true, none, none, none, none⟩ 1000
      (by decide) (by decide) (by decide) (by decide)).1 (by decide),
   (expired_strictly_after true
      [⟨"i5w", "K-5W", "S", none, 0, some 1000, true, none, none, none, none⟩]
      "K-5W" "1.2.3.4" 1000
      ⟨"i5w", "K-5W", "S", none, 0, some 1000, true, none, none, none, none⟩ 1000
      (by decide) (by decide) (by decide) (by decide)).2 (by decide)⟩

/-- Claim C6, counterexample: the not_found decision is sent with HTTP status
404 — an error status, not a successful (2xx) response — refuting the claim
that all four validation-decision outcomes are returned as non-error
responses. -/
theorem notfound_status_404_cex :
    (validateHandler true [] (some "K-9") "9.9.9.9" 0).1 = VOut.notFound
    ∧ VOut.status (validateHandler true [] (some "K-9") "9.9.9.9" 0).1 = 404 := by decide

/-- Claim C6 as amended: deactivated, expired and ip_mismatch decisions are
returned with status 200 carrying `valid=false` and a reason code, while an
unknown key is returned with status 404 whose body is still the decision
object (`valid=false`, reason not_found) rather than an error shape. -/
theorem decision_outcomes_statuses (bindIp : Bool) (s : Store) (k ip : String) (now : Nat)
    (o : VOut) (hk : k ≠ "") (ho : o = (validateHandler bindIp s (some k) ip now).1) :
    ((o.reason = some "deactivated" ∨ o.reason = some "expired"
        ∨ o.reason = some "ip_mismatch")
      → (o.status = 200 ∧ o.validFlag = false))
    ∧ (getRow s k = none →
        o = VOut.notFound ∧ o.status = 404 ∧ o.validFlag = false
          ∧ o.reason = some "not_found") := by
  constructor
  · intro hr
    cases o <;> simp_all [VOut.reason, VOut.status, VOut.validFlag]
  · intro habsent
    subst ho
    unfold validateHandler
    simp [truthy, hk, habsent, VOut.status, VOut.validFlag, VOut.reason]

/-- Witness for the amended C6 on an unknown key. -/
theorem decision_outcomes_statuses_witness :
    (((validateHandler true [] (some "K-6") "1.1.1.1" 0).1.reason = some "deactivated"
        ∨ (validateHandler true [] (some "K-6") "1.1.1.1" 0).1.reason = some "expired"
        ∨ (validateHandler true [] (some "K-6") "1.1.1.1" 0).1.reason = some "ip_mismatch")
      → ((validateHandler true [] (some "K-6") "1.1.1.1" 0).1.status = 200
          ∧ (validateHandler true [] (some "K-6") "1.1.1.1" 0).1.validFlag = false))
    ∧ (getRow [] "K-6" = none →
        (validateHandler true [] (some "K-6") "1.1.1.1" 0).1 = VOut.notFound
        ∧ (validateHandler true [] (some "K-6") "1.1.1.1" 0).1.status = 404
        ∧ (validateHandler true [] (some "K-6") "1.1.1.1" 0).1.validFlag = false
        ∧ (validateHandler true [] (some "K-6") "1.1.1.1" 0).1.reason = some "not_found") :=
  decision_outcomes_statuses true [] "K-6" "1.1.1.1" 0
    ((validateHandler true [] (some "K-6") "1.1.1.1" 0).1) (by decide) (by decide)

/-- Claim C7, counterexample: with a store already holding the one key the
generator draws, the generate handler answers server_error immediately and
leaves the store unchanged — no second key is drawn, refuting the claim that a
duplicate-key conflict is retried once with a regenerated key before being
surfaced. The handler consumes exactly one random suffix per request, so no
retry path exists. -/
theorem generate_no_retry_cex :
    generateHandler [⟨"i", "S-X", "S", none, 0, some 9, true, none, none, none, none⟩]
        (some "S") none 30 0 "X" "id2"
      = (GOut.serverError,
          [⟨"i", "S-X", "S", none, 0, some 9, true, none, none, none, none⟩]) := by decide

/-- Claim C7 as amended: a duplicate-key conflict on generation is surfaced at
once as a server error with the store unchanged; no internal retry occurs. -/
theorem generate_conflict_server_error (s : Store) (tierQ email : Option String)
    (days now : Nat) (rand newId : String)
    (htier : ["S", "G", "A"].contains (jsToUpper (jsOr tierQ "S")) = true)
    (hdup : containsKey s (makeKey (jsToUpper (jsOr tierQ "S")) rand) = true) :
    generateHandler s tierQ email days now rand newId = (GOut.serverError, s) := by
  unfold generateHandler
  simp only [htier, hdup]
  simp

/-- Witness for the amended C7 at a concrete colliding key. -/
theorem generate_conflict_server_error_witness :
    generateHandler [⟨"i7", "S-ABC", "S", none, 0, some 9, true, none, none, none, none⟩]
        (some "S") none 30 0 "ABC" "id7"
      = (GOut.serverError,
          [⟨"i7", "S-ABC", "S", none, 0, some 9, true, none, none, none, none⟩]) :=
  generate_conflict_server_error
    [⟨"i7", "S-ABC", "S", none, 0, some 9, true, none, none, none, none⟩]
    (some "S") none 30 0 "ABC" "id7" (by decide) (by decide)

/-- Claim C8, counterexample: activating a known key without supplying
`owner_email` rewrites the stored `owner_email` to null instead of leaving the
existing value in place, refuting the claim that an omitted `owner_email`
leaves the field unchanged. -/
theorem activate_clobbers_email_cex :
    (getRow (activateHandler
        [⟨"i", "K", "S", some "a@b.c", 0, some 99, true, none, none, none, none⟩]
        (some "K") 30 none 5 "id2").2 "K").map (fun r => r.owner_email) = some none
    ∧ (getRow (activateHandler
        [⟨"i", "K", "S", some "a@b.c", 0, some 99, true, none, none, none, none⟩]
        (some "K") 30 none 5 "id2").2 "K").map (fun r => r.owner_email)
      ≠ some (some "a@b.c") := by decide

/-- Claim C8 as amended: activate on a known key sets `active=true`, overwrites
`expires_at` with `now + days` worth of milliseconds, and always overwrites
`owner_email` with the supplied argument — null when the argument is
omitted. -/
theorem activate_overwrites_fields (s : Store) (k : String) (days : Nat)
    (email : Option String) (now : Nat) (newId : String) (row : LicenseRow)
    (hk : k ≠ "") (hget : getRow s k = some row) :
    (activateHandler s (some k) days email now newId).1 = AOut.ok k (now + days * msPerDay)
    ∧ getRow (activateHandler s (some k) days email now newId).2 k
      = some { row with active := true, expires_at := some (now + days * msPerDay), owner_email := email } := by
  have hstep : activateHandler s (some k) days email now newId
      = (AOut.ok k (now + days * msPerDay),
          updateRow s k (fun r =>
            { r with active := true, expires_at := some (now + days * msPerDay), owner_email := email })) := by
    unfold activateHandler
    simp [truthy, hk, hget]
  refine ⟨by rw [hstep], ?_⟩
  rw [hstep]
  rw [getRow_updateRow_self s k
      (fun r =>
        { r with active := true, expires_at := some (now + days * msPerDay), owner_email := email })
      (fun r => rfl), hget]
  rfl

/-- Witness for the amended C8 at a concrete record. -/
theorem activate_overwrites_fields_witness :
    (activateHandler [⟨"i8", "K-8", "S", some "old@x.y", 0, some 50, false, none, none, none, none⟩]
        (some "K-8") 2 (some "new@x.y") 10 "id8").1 = AOut.ok "K-8" (10 + 2 * msPerDay)
    ∧ getRow (activateHandler
        [⟨"i8", "K-8", "S", some "old@x.y", 0, some 50, false, none, none, none, none⟩]
        (some "K-8") 2 (some "new@x.y") 10 "id8").2 "K-8"
      = some ⟨"i8", "K-8", "S", some "new@x.y", 0, some (10 + 2 * msPerDay), true, none, none, none, none⟩ :=
  activate_overwrites_fields
    [⟨"i8", "K-8", "S", some "old@x.y", 0, some 50, false, none, none, none, none⟩]
    "K-8" 2 (some "new@x.y") 10 "id8"
    ⟨"i8", "K-8", "S", some "old@x.y", 0, some 50, false, none, none, none, none⟩
    (by decide) (by decide)

/-- Claim C9: renew on a key that was never created fails with not_found and
returns the store exactly as it was — nothing is created or modified. -/
theorem renew_unknown_notfound (s : Store) (k : String) (days now : Nat)
    (hk : k ≠ "") (habsent : getRow s k = none) :
    renewHandler s (some k) days now = (ROut.notFound, s) := by
  unfold renewHandler
  simp [truthy, hk, habsent]

/-- Witness for C9 on the never-created key of the spec scenario. -/
theorem renew_unknown_notfound_witness :
    renewHandler [] (some "X-DOESNOTEXIST") 30 0 = (ROut.notFound, []) :=
  renew_unknown_notfound [] "X-DOESNOTEXIST" 30 0 (by decide) (by decide)

/-- Claim C10: generate with the tier parameter absent defaults the tier to S
and issues a key instead of failing, and a lower-case tier letter is accepted
by upper-casing it before the membership check. -/
theorem generate_tier_defaults (s s2 : Store) (email email2 : Option String)
    (days days2 now now2 : Nat) (rand rand2 newId newId2 : String)
    (h1 : containsKey s (makeKey "S" rand) = false)
    (h2 : containsKey s2 (makeKey "G" rand2) = false) :
    (generateHandler s none email days now rand newId).1
      = GOut.ok (makeKey "S" rand) "Sentinel" (now + days * msPerDay) now email
    ∧ (generateHandler s2 (some "g") email2 days2 now2 rand2 newId2).1
      = GOut.ok (makeKey "G" rand2) "Guardian" (now2 + days2 * msPerDay) now2 email2 := by
  constructor
  · have hS : jsToUpper (jsOr none "S") = "S" := by decide
    unfold generateHandler
    simp [hS, h1, tierName]
  · have hG : jsToUpper (jsOr (some "g") "S") = "G" := by decide
    unfold generateHandler
    simp [hG, h2, tierName]

/-- Witness for C10 with an absent and a lower-case tier. -/
theorem generate_tier_defaults_witness :
    (generateHandler [] none none 30 0 "AB12" "id1").1
      = GOut.ok (makeKey "S" "AB12") "Sentinel" (0 + 30 * msPerDay) 0 none
    ∧ (generateHandler [] (some "g") none 7 5 "CD34" "id2").1
      = GOut.ok (makeKey "G" "CD34") "Guardian" (5 + 7 * msPerDay) 5 none :=
  generate_tier_defaults [] [] none none 30 7 0 5 "AB12" "CD34" "id1" "id2"
    (by decide) (by decide)

end LicenseServer
